import Mathlib

/-!
Shallow embedding of the ezenv-sdk client core (src/client.ts together with
the error classes of src/errors.ts).

The client state is the in-memory cache, a JS `Map` from the string
`projectName ++ ":" ++ environmentName` to a secrets object; we model both
the cache and string-to-string objects as association lists in insertion
order, with `mapGet`/`mapSet` giving the JS `Map.get`/`Map.set` (and object
index/assignment) semantics.  The network is an oracle: a `TransportOutcome`
says what the `fetch` call and the subsequent `response.json()` would do,
and `EzEnv.get` is a pure function of the cache, the arguments and that
outcome, returning the thrown-or-returned result, the new cache, whether a
network request was issued, and the timeout the cancellation timer was
armed with (when one was armed at all).
-/

namespace EzEnvSdk

/-- Secrets objects (`Record<string, string>`): key/value pairs in JS object
insertion order. -/
abbrev Secrets := List (String × String)

/-- The cache of the client: a JS `Map<string, Record<string, string>>`. -/
abbrev Cache := List (String × Secrets)

/-- The process environment `process.env`, a string-to-string object. -/
abbrev EnvMap := List (String × String)

/-- JS `Map.get` / object indexing on the association-list model. -/
def mapGet : List (String × α) → String → Option α
  | [], _ => none
  | (k', v) :: rest, k => if k' = k then some v else mapGet rest k

/-- JS `Map.set` / object assignment: replace the binding in place when the
key is present, append otherwise. -/
def mapSet : List (String × α) → String → α → List (String × α)
  | [], k, v => [(k, v)]
  | (k', v') :: rest, k, v =>
    if k' = k then (k, v) :: rest else (k', v') :: mapSet rest k v

/-- The error classes of src/errors.ts: the base class `EzEnvError` and its
four subclasses. -/
inductive SdkError
  | EzEnvError (message : String)
  | NetworkError (message : String)
  | AuthError (message : String)
  | NotFoundError (message : String)
  | ValidationError (message : String)
  deriving DecidableEq, Repr

/-- JS `a || b` where `a` is a possibly-absent string field: `undefined` and
the empty string are both falsy and select the default. -/
def jsOr (a : Option String) (b : String) : String :=
  match a with
  | none => b
  | some s => if s = "" then b else s

/-- The per-call options object `EzEnvOptions` of src/types.ts; an absent
boolean field is falsy, an absent `timeout` is `undefined`. -/
structure EzEnvOptions where
  noCache : Bool := false
  timeout : Option Nat := none
  override : Bool := false
  deriving DecidableEq, Repr

/-- What `response.json()` does once a response has arrived: either the body
parses to JSON (an optional `error` string field and, for success payloads,
a `secrets` object), or parsing throws a failure with a `name` and a
possibly-absent `message`. -/
inductive BodyOutcome
  | json (errMsg : Option String) (secrets : Secrets)
  | notJson (name : String) (message : Option String)
  deriving DecidableEq, Repr

/-- What the network does for one call: either `fetch` itself throws a
failure with a `name` and a possibly-absent `message`, or a response with
an HTTP status arrives and its body is read. -/
inductive TransportOutcome
  | fetchThrew (name : String) (message : Option String)
  | response (status : Nat) (body : BodyOutcome)
  deriving DecidableEq, Repr

/-- `Response.ok`: the HTTP status is in the 2xx success range. -/
def respOk (status : Nat) : Bool :=
  200 ≤ status && status ≤ 299

/-- The armed timeout, `options?.timeout || 30000` (client.ts line 51): any
falsy value, absent or 0, selects the 30000 ms default. -/
def timeoutOrDefault : Option Nat → Nat
  | none => 30000
  | some n => if n = 0 then 30000 else n

/-- The catch clause of `EzEnv.get` (client.ts lines 96-110) applied to a
thrown failure that is not one of the five typed errors: an AbortError
becomes the timeout NetworkError, the fetch API's connection failure
(message exactly "Failed to fetch") becomes the connection NetworkError,
and anything else a NetworkError with the failure's message or a default. -/
def handleCatch (name : String) (message : Option String) : SdkError :=
  if name = "AbortError" then .NetworkError "Request timeout"
  else if message = some "Failed to fetch" then
    .NetworkError "Failed to connect to EzEnv API"
  else .NetworkError (jsOr message "Network error occurred")

/-- The non-2xx status mapping of `EzEnv.get` (client.ts lines 70-88). -/
def statusError (status : Nat) (errMsg : Option String)
    (projectName environmentName : String) : SdkError :=
  if status = 401 then .AuthError (jsOr errMsg "Invalid API key")
  else if status = 403 then .AuthError (jsOr errMsg "Permission denied")
  else if status = 404 then
    .NotFoundError (jsOr errMsg
      ("Project \"" ++ projectName ++ "\" or environment \""
        ++ environmentName ++ "\" not found"))
  else .EzEnvError (jsOr errMsg "Failed to fetch secrets")

instance [DecidableEq ε] [DecidableEq α] : DecidableEq (Except ε α) := fun a b =>
  match a, b with
  | .ok x, .ok y =>
    if h : x = y then .isTrue (congrArg Except.ok h)
    else .isFalse (fun hh => h (Except.ok.inj hh))
  | .error x, .error y =>
    if h : x = y then .isTrue (congrArg Except.error h)
    else .isFalse (fun hh => h (Except.error.inj hh))
  | .ok _, .error _ => .isFalse (fun hh => Except.noConfusion hh)
  | .error _, .ok _ => .isFalse (fun hh => Except.noConfusion hh)

/-- The outcome of one `EzEnv.get` call: the returned secrets or thrown
error, the cache afterwards, whether a network request was issued, and the
milliseconds the cancellation timer was armed with (`none` when the call
never reached the network path). -/
structure GetResult where
  result : Except SdkError Secrets
  cache : Cache
  networkCalled : Bool
  timerMs : Option Nat
  deriving DecidableEq, Repr

/-- The try/catch body of `EzEnv.get` (client.ts lines 46-110): arm the
cancellation timer, issue the fetch, parse the body, then either map a
non-success status to a typed error, or cache and return the secrets; a
failure thrown by `fetch` or by `response.json()` is translated by the
catch clause (the typed errors thrown by the status mapping pass through
the catch's `instanceof EzEnvError` rethrow unchanged). -/
def EzEnv.getNetwork (cache : Cache) (projectName environmentName : String)
    (options : EzEnvOptions) (transport : TransportOutcome) : GetResult :=
  let timerMs := timeoutOrDefault options.timeout
  match transport with
  | .fetchThrew name message =>
    ⟨.error (handleCatch name message), cache, true, some timerMs⟩
  | .response status body =>
    match body with
    | .notJson name message =>
      ⟨.error (handleCatch name message), cache, true, some timerMs⟩
    | .json errMsg secrets =>
      if respOk status then
        ⟨.ok secrets,
          mapSet cache (projectName ++ ":" ++ environmentName) secrets,
          true, some timerMs⟩
      else
        ⟨.error (statusError status errMsg projectName environmentName),
          cache, true, some timerMs⟩

/-- `EzEnv.get` (client.ts lines 25-111): validate the two names, build the
cache key `projectName:environmentName`, serve a cache hit unless
`noCache` is set, and otherwise run the network path. -/
def EzEnv.get (cache : Cache) (projectName environmentName : String)
    (options : EzEnvOptions) (transport : TransportOutcome) : GetResult :=
  if projectName = "" then
    ⟨.error (.ValidationError "Project name is required"), cache, false, none⟩
  else if environmentName = "" then
    ⟨.error (.ValidationError "Environment name is required"), cache, false, none⟩
  else
    match mapGet cache (projectName ++ ":" ++ environmentName) with
    | some secrets =>
      if options.noCache then
        EzEnv.getNetwork cache projectName environmentName options transport
      else
        ⟨.ok secrets, cache, false, none⟩
    | none => EzEnv.getNetwork cache projectName environmentName options transport

/-- The loop body of `EzEnv.load` (client.ts lines 123-128) folded over the
fetched entries: skip a key that is already set unless `override` is
truthy, otherwise assign it. -/
def applySecrets (env : EnvMap) (secrets : Secrets) (ov : Bool) : EnvMap :=
  match secrets with
  | [] => env
  | (k, v) :: rest =>
    applySecrets (if !ov && (mapGet env k).isSome then env else mapSet env k v)
      rest ov

/-- The outcome of one `EzEnv.load` call: thrown error or unit, the cache
and the process environment afterwards, and whether a network request was
issued. -/
structure LoadResult where
  result : Except SdkError Unit
  cache : Cache
  env : EnvMap
  networkCalled : Bool
  deriving DecidableEq, Repr

/-- `EzEnv.load` (client.ts lines 116-129): fetch via `EzEnv.get` with the
same arguments, then merge the fetched entries into `process.env`; a fetch
failure propagates before any environment mutation. -/
def EzEnv.load (cache : Cache) (env : EnvMap)
    (projectName environmentName : String)
    (options : EzEnvOptions) (transport : TransportOutcome) : LoadResult :=
  match EzEnv.get cache projectName environmentName options transport with
  | ⟨.ok secrets, cache', net, _⟩ =>
    ⟨.ok (), cache', applySecrets env secrets options.override, net⟩
  | ⟨.error e, cache', net, _⟩ => ⟨.error e, cache', env, net⟩

/-- `EzEnv.clearCache` (client.ts lines 134-136). -/
def EzEnv.clearCache (_cache : Cache) : Cache := []

/-- `EzEnv.getCacheSize` (client.ts lines 141-143): `Map.size`, the number
of keys, which is the list length since `mapSet` keeps keys distinct. -/
def EzEnv.getCacheSize (cache : Cache) : Nat := cache.length

/-- The operations a caller can perform on one client between construction
and the point the cache is observed. -/
inductive Op
  | fetch (projectName environmentName : String)
      (options : EzEnvOptions) (transport : TransportOutcome)
  | clear
  deriving Repr

/-- Run a sequence of operations left to right from a given cache. -/
def runOps : Cache → List Op → Cache
  | cache, [] => cache
  | cache, .fetch p e o t :: rest => runOps (EzEnv.get cache p e o t).cache rest
  | cache, .clear :: rest => runOps (EzEnv.clearCache cache) rest

/-- Whether a `clearCache` occurs anywhere in the remaining operations. -/
def hasClear : List Op → Bool
  | [] => false
  | .clear :: _ => true
  | .fetch _ _ _ _ :: rest => hasClear rest

/-- Whether an `Except` result is a success. -/
def exceptOk : Except ε α → Bool
  | .ok _ => true
  | .error _ => false

/-- Whether, running from the given cache, some fetch whose joined cache key
`projectName:environmentName` equals `k` completes successfully with no
`clearCache` after it. -/
def okFetchSince : Cache → List Op → String → Bool
  | _, [], _ => false
  | _, .clear :: rest, k => okFetchSince [] rest k
  | cache, .fetch p e o t :: rest, k =>
    (exceptOk (EzEnv.get cache p e o t).result
        && decide (p ++ ":" ++ e = k) && !hasClear rest)
      || okFetchSince (EzEnv.get cache p e o t).cache rest k

/-- Whether, running from the given cache, some fetch for exactly the pair
`(p, e)` completes successfully with no `clearCache` after it. -/
def okFetchPairSince : Cache → List Op → String → String → Bool
  | _, [], _, _ => false
  | _, .clear :: rest, p, e => okFetchPairSince [] rest p e
  | cache, .fetch p' e' o t :: rest, p, e =>
    (exceptOk (EzEnv.get cache p' e' o t).result
        && decide (p' = p) && decide (e' = e) && !hasClear rest)
      || okFetchPairSince (EzEnv.get cache p' e' o t).cache rest p e

/-! Helper lemmas shared by the claim theorems. -/

theorem mapGet_mapSet (m : List (String × α)) (k k' : String) (v : α) :
    mapGet (mapSet m k v) k' = if k = k' then some v else mapGet m k' := by
  induction m with
  | nil => simp [mapSet, mapGet]
  | cons hd tl ih =>
    obtain ⟨a, b⟩ := hd
    by_cases h1 : a = k <;> by_cases h2 : k = k' <;>
      simp_all [mapSet, mapGet]

theorem get_eq_getNetwork (cache : Cache) (p e : String) (o : EzEnvOptions)
    (t : TransportOutcome) (hp : p ≠ "") (he : e ≠ "")
    (hmiss : o.noCache = true ∨ mapGet cache (p ++ ":" ++ e) = none) :
    EzEnv.get cache p e o t = EzEnv.getNetwork cache p e o t := by
  unfold EzEnv.get
  rcases hmiss with h | h
  · cases hm : mapGet cache (p ++ ":" ++ e) <;> simp [hp, he, h, hm]
  · simp [hp, he, h]

theorem getNetwork_timerMs (cache : Cache) (p e : String) (o : EzEnvOptions)
    (t : TransportOutcome) :
    (EzEnv.getNetwork cache p e o t).timerMs = some (timeoutOrDefault o.timeout) := by
  unfold EzEnv.getNetwork
  cases t with
  | fetchThrew n m => rfl
  | response status body =>
    cases body with
    | notJson n m => rfl
    | json errMsg secrets => by_cases h : respOk status <;> simp [h]

theorem getNetwork_cache_isSome (cache : Cache) (p e : String) (o : EzEnvOptions)
    (t : TransportOutcome) (k : String) :
    (mapGet (EzEnv.getNetwork cache p e o t).cache k).isSome
      = ((exceptOk (EzEnv.getNetwork cache p e o t).result
            && decide (p ++ ":" ++ e = k))
          || (mapGet cache k).isSome) := by
  unfold EzEnv.getNetwork
  cases t with
  | fetchThrew n m => simp [exceptOk]
  | response status body =>
    cases body with
    | notJson n m => simp [exceptOk]
    | json errMsg secrets =>
      by_cases hok : respOk status
      · by_cases hk : p ++ ":" ++ e = k <;>
          simp [hok, exceptOk, mapGet_mapSet, hk]
      · simp [hok, exceptOk]

theorem get_cache_isSome (cache : Cache) (p e : String) (o : EzEnvOptions)
    (t : TransportOutcome) (k : String) :
    (mapGet (EzEnv.get cache p e o t).cache k).isSome
      = ((exceptOk (EzEnv.get cache p e o t).result
            && decide (p ++ ":" ++ e = k))
          || (mapGet cache k).isSome) := by
  by_cases hp : p = ""
  · simp [EzEnv.get, hp, exceptOk]
  · by_cases he : e = ""
    · simp [EzEnv.get, hp, he, exceptOk]
    · rcases hm : mapGet cache (p ++ ":" ++ e) with _ | s
      · rw [get_eq_getNetwork cache p e o t hp he (Or.inr hm)]
        exact getNetwork_cache_isSome cache p e o t k
      · cases hnc : o.noCache
        · by_cases hk : p ++ ":" ++ e = k
          · simp [EzEnv.get, hp, he, hm, hnc, exceptOk, hk]
            simp [← hk, hm]
          · simp [EzEnv.get, hp, he, hm, hnc, exceptOk, hk]
        · rw [get_eq_getNetwork cache p e o t hp he (Or.inl hnc)]
          exact getNetwork_cache_isSome cache p e o t k

theorem bool_shuffle (a b c d : Bool) :
    (b || ((a || c) && d)) = ((a && d || b) || (c && d)) := by
  cases a <;> cases b <;> cases c <;> cases d <;> rfl

theorem runOps_mem (ops : List Op) : ∀ (cache : Cache) (k : String),
    (mapGet (runOps cache ops) k).isSome
      = (okFetchSince cache ops k
          || ((mapGet cache k).isSome && !hasClear ops)) := by
  induction ops with
  | nil => intro cache k; simp [runOps, okFetchSince, hasClear]
  | cons op rest ih =>
    intro cache k
    cases op with
    | clear =>
      simp [runOps, okFetchSince, hasClear, EzEnv.clearCache, ih, mapGet]
    | fetch p e o t =>
      simp only [runOps, okFetchSince, hasClear]
      rw [ih, get_cache_isSome]
      exact bool_shuffle _ _ _ _

theorem get_ok_mapGet (cache : Cache) (p e : String) (o : EzEnvOptions)
    (t : TransportOutcome) (s : Secrets)
    (h : (EzEnv.get cache p e o t).result = .ok s) :
    mapGet (EzEnv.get cache p e o t).cache (p ++ ":" ++ e) = some s := by
  by_cases hp : p = ""
  · simp [EzEnv.get, hp] at h
  · by_cases he : e = ""
    · simp [EzEnv.get, hp, he] at h
    · rcases hm : mapGet cache (p ++ ":" ++ e) with _ | s'
      · rw [get_eq_getNetwork cache p e o t hp he (Or.inr hm)] at h ⊢
        unfold EzEnv.getNetwork at h ⊢
        cases t with
        | fetchThrew n m => simp at h
        | response status body =>
          cases body with
          | notJson n m => simp at h
          | json errMsg secrets =>
            by_cases hok : respOk status <;> simp [hok] at h ⊢
            simp [mapGet_mapSet, h]
      · cases hnc : o.noCache
        · simp [EzEnv.get, hp, he, hm, hnc] at h ⊢
          simp [hm, h]
        · rw [get_eq_getNetwork cache p e o t hp he (Or.inl hnc)] at h ⊢
          unfold EzEnv.getNetwork at h ⊢
          cases t with
          | fetchThrew n m => simp at h
          | response status body =>
            cases body with
            | notJson n m => simp at h
            | json errMsg secrets =>
              by_cases hok : respOk status <;> simp [hok] at h ⊢
              simp [mapGet_mapSet, h]

theorem get_ok_nonempty (cache : Cache) (p e : String) (o : EzEnvOptions)
    (t : TransportOutcome) (s : Secrets)
    (h : (EzEnv.get cache p e o t).result = .ok s) : p ≠ "" ∧ e ≠ "" := by
  constructor
  · intro hp; simp [EzEnv.get, hp] at h
  · intro he
    by_cases hp : p = "" <;> simp [EzEnv.get, hp, he] at h

theorem get_fresh_cache (p e : String) (o : EzEnvOptions)
    (t : TransportOutcome) (s : Secrets)
    (h : (EzEnv.get [] p e o t).result = .ok s) :
    (EzEnv.get [] p e o t).cache = [(p ++ ":" ++ e, s)] := by
  obtain ⟨hp, he⟩ := get_ok_nonempty [] p e o t s h
  rw [get_eq_getNetwork [] p e o t hp he (Or.inr rfl)] at h ⊢
  unfold EzEnv.getNetwork at h ⊢
  cases t with
  | fetchThrew n m => simp at h
  | response status body =>
    cases body with
    | notJson n m => simp at h
    | json errMsg secrets =>
      by_cases hok : respOk status <;> simp [hok] at h ⊢
      simp [mapSet, h]

theorem load_env_eq (cache : Cache) (env : EnvMap) (p e : String)
    (o : EzEnvOptions) (t : TransportOutcome) :
    (EzEnv.load cache env p e o t).env
      = (match (EzEnv.get cache p e o t).result with
          | .ok s => applySecrets env s o.override
          | .error _ => env) := by
  unfold EzEnv.load
  rcases h : EzEnv.get cache p e o t with ⟨res, cache', net, timer⟩
  cases res <;> simp

theorem load_result_eq (cache : Cache) (env : EnvMap) (p e : String)
    (o : EzEnvOptions) (t : TransportOutcome) :
    (EzEnv.load cache env p e o t).result
      = (match (EzEnv.get cache p e o t).result with
          | .ok _ => .ok ()
          | .error err => .error err) := by
  unfold EzEnv.load
  rcases h : EzEnv.get cache p e o t with ⟨res, cache', net, timer⟩
  cases res <;> simp

theorem applySecrets_not_mem (secrets : Secrets) : ∀ (env : EnvMap)
    (ov : Bool) (k : String), k ∉ secrets.map Prod.fst →
    mapGet (applySecrets env secrets ov) k = mapGet env k := by
  induction secrets with
  | nil => intro env ov k _; rfl
  | cons kv rest ih =>
    intro env ov k hk
    obtain ⟨a, b⟩ := kv
    simp only [List.map_cons, List.mem_cons, not_or] at hk
    obtain ⟨hak, hrest⟩ := hk
    show mapGet (applySecrets (if _ then env else mapSet env a b) rest ov) k = _
    rw [ih _ ov k hrest]
    split
    · rfl
    · rw [mapGet_mapSet, if_neg (show a ≠ k from fun h => hak h.symm)]

theorem applySecrets_mem (secrets : Secrets) : ∀ (env : EnvMap)
    (ov : Bool) (k v : String), (secrets.map Prod.fst).Nodup →
    (k, v) ∈ secrets →
    mapGet (applySecrets env secrets ov) k
      = if !ov && (mapGet env k).isSome then mapGet env k else some v := by
  induction secrets with
  | nil => intro env ov k v _ hmem; cases hmem
  | cons kv rest ih =>
    intro env ov k v hnd hmem
    obtain ⟨a, b⟩ := kv
    simp only [List.map_cons, List.nodup_cons] at hnd
    obtain ⟨ha, hndrest⟩ := hnd
    rcases List.mem_cons.mp hmem with heq | hmem'
    · obtain ⟨rfl, rfl⟩ := Prod.mk.inj heq.symm
      show mapGet (applySecrets (if _ then env else mapSet env a b) rest ov) a = _
      rw [applySecrets_not_mem rest _ ov a ha]
      split
      · rfl
      · rw [mapGet_mapSet]; simp
    · have hak : a ≠ k := by
        intro hh
        exact ha (hh ▸ List.mem_map.mpr ⟨(k, v), hmem', rfl⟩)
      have hstep : mapGet (if !ov && (mapGet env a).isSome then env
          else mapSet env a b) k = mapGet env k := by
        split
        · rfl
        · rw [mapGet_mapSet]; simp [hak]
      show mapGet (applySecrets (if _ then env else mapSet env a b) rest ov) k = _
      rw [ih _ ov k v hndrest hmem', hstep]

/-! The claims. -/

/-- C1: counterexample to the claim as stated.  After one successful fetch
for the pair ("a:b", "c") — both components non-empty — the cache key of
the distinct pair ("a", "b:c") is present in the cache (both pairs join to
the string "a:b:c"), no fetch for ("a", "b:c") ever completed successfully,
and a subsequent fetch for ("a", "b:c") without bypass returns the cached
bundle with no network request, even though its own transport would have
failed. -/
theorem C1_pair_alias_counterexample :
    ("a" : String) ≠ "" ∧ ("b:c" : String) ≠ ""
    ∧ (mapGet
        (runOps [] [Op.fetch "a:b" "c" {} (.response 200 (.json none [("K", "v")]))])
        ("a" ++ ":" ++ "b:c")).isSome = true
    ∧ okFetchPairSince []
        [Op.fetch "a:b" "c" {} (.response 200 (.json none [("K", "v")]))]
        "a" "b:c" = false
    ∧ (EzEnv.get
        (runOps [] [Op.fetch "a:b" "c" {} (.response 200 (.json none [("K", "v")]))])
        "a" "b:c" {} (.fetchThrew "TypeError" (some "Failed to fetch"))).result
        = .ok [("K", "v")]
    ∧ (EzEnv.get
        (runOps [] [Op.fetch "a:b" "c" {} (.response 200 (.json none [("K", "v")]))])
        "a" "b:c" {} (.fetchThrew "TypeError" (some "Failed to fetch"))).networkCalled
        = false := by
  decide

/-- C1 (amended): after any sequence of fetch/clearCache operations on a
fresh client, the cache key of a (project, environment) pair — the joined
string project:environment — is present in the cache if and only if some
fetchSecrets call whose own joined project:environment string equals that
key has completed successfully since the last clearCache.  Because joining
with ':' is not injective, distinct pairs can share one cache key, and a
pair that was never itself fetched is served from the cache whenever an
aliasing pair has been fetched successfully. -/
theorem C1_cache_key_invariant (ops : List Op) (p e : String) :
    (mapGet (runOps [] ops) (p ++ ":" ++ e)).isSome
      = okFetchSince [] ops (p ++ ":" ++ e) := by
  rw [runOps_mem]
  simp [mapGet]

/-- C2: a fetchSecrets call that reaches the network (non-empty names, and
a cache miss or bypass) and receives a response whose body parses as JSON
with a non-success status fails with: AuthError ("Invalid API key" default)
for 401, AuthError ("Permission denied" default) for 403, NotFoundError
naming the project and environment by default for 404, and the base
EzEnvError ("Failed to fetch secrets" default) for any other non-2xx
status, each carrying the server-supplied error message when one is
supplied. -/
theorem C2_status_error_mapping (cache : Cache) (p e : String)
    (o : EzEnvOptions) (status : Nat) (errMsg : Option String)
    (secrets : Secrets) (hp : p ≠ "") (he : e ≠ "")
    (hmiss : o.noCache = true ∨ mapGet cache (p ++ ":" ++ e) = none)
    (hstatus : respOk status = false) :
    (EzEnv.get cache p e o (.response status (.json errMsg secrets))).result
      = .error
          (if status = 401 then SdkError.AuthError (jsOr errMsg "Invalid API key")
           else if status = 403 then SdkError.AuthError (jsOr errMsg "Permission denied")
           else if status = 404 then
             SdkError.NotFoundError (jsOr errMsg
               ("Project \"" ++ p ++ "\" or environment \"" ++ e ++ "\" not found"))
           else SdkError.EzEnvError (jsOr errMsg "Failed to fetch secrets")) := by
  rw [get_eq_getNetwork cache p e o _ hp he hmiss]
  unfold EzEnv.getNetwork
  simp [hstatus, statusError]

/-- C2 witness: a 404 response with no server-supplied message at a
concrete input. -/
theorem C2_status_error_mapping_witness :
    (EzEnv.get [] "proj" "dev" {} (.response 404 (.json none []))).result
      = .error (.NotFoundError
          "Project \"proj\" or environment \"dev\" not found") := by
  have h := C2_status_error_mapping [] "proj" "dev" {} 404 none []
    (by decide) (by decide) (Or.inr rfl) (by decide)
  simpa using h

/-- C3: a fetchSecrets call that reaches the network and whose fetch is
aborted by the timeout cancellation signal (a thrown failure named
"AbortError") fails with NetworkError "Request timeout"; a call whose
fetch throws the generic connection failure (message "Failed to fetch",
any other name) fails with NetworkError "Failed to connect to EzEnv API";
the two messages differ, so the outcomes are distinguishable even though
both are NetworkError. -/
theorem C3_timeout_vs_connection (cache : Cache) (p e : String)
    (o : EzEnvOptions) (name : String) (message : Option String)
    (hp : p ≠ "") (he : e ≠ "")
    (hmiss : o.noCache = true ∨ mapGet cache (p ++ ":" ++ e) = none) :
    ((EzEnv.get cache p e o (.fetchThrew "AbortError" message)).result
        = .error (.NetworkError "Request timeout"))
    ∧ (name ≠ "AbortError" →
        (EzEnv.get cache p e o (.fetchThrew name (some "Failed to fetch"))).result
          = .error (.NetworkError "Failed to connect to EzEnv API"))
    ∧ ("Request timeout" : String) ≠ "Failed to connect to EzEnv API" := by
  refine ⟨?_, ?_, by decide⟩
  · rw [get_eq_getNetwork cache p e o _ hp he hmiss]
    simp [EzEnv.getNetwork, handleCatch]
  · intro hn
    rw [get_eq_getNetwork cache p e o _ hp he hmiss]
    simp [EzEnv.getNetwork, handleCatch, hn]

/-- C3 witness: the timeout abort and the connection failure at concrete
inputs. -/
theorem C3_timeout_vs_connection_witness :
    (EzEnv.get [] "proj" "dev" {} (.fetchThrew "AbortError" none)).result
      = .error (.NetworkError "Request timeout")
    ∧ (EzEnv.get [] "proj" "dev" {}
        (.fetchThrew "TypeError" (some "Failed to fetch"))).result
      = .error (.NetworkError "Failed to connect to EzEnv API") := by
  have h := C3_timeout_vs_connection [] "proj" "dev" {} "TypeError" none
    (by decide) (by decide) (Or.inr rfl)
  exact ⟨h.1, h.2.1 (by decide)⟩

/-- C4: after a fetchSecrets call for (p, e) completes successfully with
bundle s, a second call for the same pair without the bypass option
returns the identical bundle s, issues no network request, and leaves the
cache unchanged; on a fresh client the cache holds exactly one entry after
the first fetch. -/
theorem C4_cached_second_fetch (cache : Cache) (p e : String)
    (o1 o2 : EzEnvOptions) (t1 t2 : TransportOutcome) (s : Secrets)
    (h1 : (EzEnv.get cache p e o1 t1).result = .ok s)
    (hnc : o2.noCache = false) :
    ((EzEnv.get (EzEnv.get cache p e o1 t1).cache p e o2 t2).result = .ok s)
    ∧ ((EzEnv.get (EzEnv.get cache p e o1 t1).cache p e o2 t2).networkCalled = false)
    ∧ ((EzEnv.get (EzEnv.get cache p e o1 t1).cache p e o2 t2).cache
        = (EzEnv.get cache p e o1 t1).cache)
    ∧ (cache = [] →
        EzEnv.getCacheSize (EzEnv.get cache p e o1 t1).cache = 1) := by
  obtain ⟨hp, he⟩ := get_ok_nonempty cache p e o1 t1 s h1
  have hhit := get_ok_mapGet cache p e o1 t1 s h1
  have hsize : cache = [] →
      EzEnv.getCacheSize (EzEnv.get cache p e o1 t1).cache = 1 := by
    intro hfresh
    subst hfresh
    rw [get_fresh_cache p e o1 t1 s h1]
    rfl
  refine ⟨?_, ?_, ?_, hsize⟩ <;>
  · generalize hc1 : (EzEnv.get cache p e o1 t1).cache = c1 at hhit ⊢
    simp [EzEnv.get, hp, he, hhit, hnc]

/-- C4 witness: a successful 200 fetch on a fresh client followed by a
default-options refetch, at concrete inputs. -/
theorem C4_cached_second_fetch_witness :
    ((EzEnv.get
        (EzEnv.get [] "proj" "dev" {} (.response 200 (.json none [("K", "v")]))).cache
        "proj" "dev" {} (.fetchThrew "TypeError" (some "Failed to fetch"))).result
      = .ok [("K", "v")])
    ∧ EzEnv.getCacheSize
        (EzEnv.get [] "proj" "dev" {} (.response 200 (.json none [("K", "v")]))).cache
      = 1 := by
  have h := C4_cached_second_fetch [] "proj" "dev" {} {}
    (.response 200 (.json none [("K", "v")]))
    (.fetchThrew "TypeError" (some "Failed to fetch"))
    [("K", "v")] (by decide) rfl
  exact ⟨h.1, h.2.2.2 rfl⟩

/-- C5: a fetchSecrets call with the bypass option for a pair that already
has a cache entry issues a network request anyway, and on a successful 2xx
response overwrites that entry with the freshly fetched bundle. -/
theorem C5_bypass_refetch (cache : Cache) (p e : String) (o : EzEnvOptions)
    (status : Nat) (errMsg : Option String) (old fresh : Secrets)
    (hp : p ≠ "") (he : e ≠ "")
    (_hhit : mapGet cache (p ++ ":" ++ e) = some old)
    (hnc : o.noCache = true) (hok : respOk status = true) :
    ((EzEnv.get cache p e o (.response status (.json errMsg fresh))).networkCalled
        = true)
    ∧ mapGet (EzEnv.get cache p e o (.response status (.json errMsg fresh))).cache
        (p ++ ":" ++ e) = some fresh := by
  rw [get_eq_getNetwork cache p e o _ hp he (Or.inl hnc)]
  unfold EzEnv.getNetwork
  simp [hok, mapGet_mapSet]

/-- C5 witness: a bypassing refetch over an existing entry at concrete
inputs. -/
theorem C5_bypass_refetch_witness :
    ((EzEnv.get [("proj:dev", [("K", "v")])] "proj" "dev" ⟨true, none, false⟩
        (.response 200 (.json none [("K", "v2")]))).networkCalled = true)
    ∧ mapGet (EzEnv.get [("proj:dev", [("K", "v")])] "proj" "dev" ⟨true, none, false⟩
        (.response 200 (.json none [("K", "v2")]))).cache ("proj" ++ ":" ++ "dev")
      = some [("K", "v2")] :=
  C5_bypass_refetch [("proj:dev", [("K", "v")])] "proj" "dev" ⟨true, none, false⟩
    200 none [("K", "v")] [("K", "v2")]
    (by decide) (by decide) (by decide) rfl (by decide)

/-- C6: for every key/value pair of a bundle successfully fetched by an
applyToEnvironment (load) call: when override is false (its default) and
the key is already set in the process environment, the existing value is
kept; otherwise the variable is set to the fetched value; and a key absent
from the bundle is never touched. -/
theorem C6_override_rule (cache : Cache) (env : EnvMap) (p e : String)
    (o : EzEnvOptions) (t : TransportOutcome) (s : Secrets)
    (hres : (EzEnv.get cache p e o t).result = .ok s)
    (hnd : (s.map Prod.fst).Nodup) :
    (∀ k v, (k, v) ∈ s →
      mapGet (EzEnv.load cache env p e o t).env k
        = if o.override = false ∧ (mapGet env k).isSome = true
          then mapGet env k else some v)
    ∧ ∀ k, k ∉ s.map Prod.fst →
        mapGet (EzEnv.load cache env p e o t).env k = mapGet env k := by
  have henv : (EzEnv.load cache env p e o t).env
      = applySecrets env s o.override := by
    rw [load_env_eq, hres]
  rw [henv]
  constructor
  · intro k v hm
    rw [applySecrets_mem s env o.override k v hnd hm]
    cases hov : o.override <;> cases hex : (mapGet env k).isSome <;>
      simp [hov, hex]
  · intro k hk
    exact applySecrets_not_mem s env o.override k hk

/-- C6 witness: the spec's scenario at concrete inputs — with the default
options, EXISTING keeps its pre-existing value, NEW_VAR is set from the
bundle, and an absent key stays unset. -/
theorem C6_override_rule_witness :
    mapGet (EzEnv.load [] [("EXISTING", "original")] "proj" "dev" {}
        (.response 200 (.json none [("EXISTING", "new"), ("NEW_VAR", "x")]))).env
      "EXISTING" = some "original"
    ∧ mapGet (EzEnv.load [] [("EXISTING", "original")] "proj" "dev" {}
        (.response 200 (.json none [("EXISTING", "new"), ("NEW_VAR", "x")]))).env
      "NEW_VAR" = some "x"
    ∧ mapGet (EzEnv.load [] [("EXISTING", "original")] "proj" "dev" {}
        (.response 200 (.json none [("EXISTING", "new"), ("NEW_VAR", "x")]))).env
      "OTHER" = none := by
  have h := C6_override_rule [] [("EXISTING", "original")] "proj" "dev" {}
    (.response 200 (.json none [("EXISTING", "new"), ("NEW_VAR", "x")]))
    [("EXISTING", "new"), ("NEW_VAR", "x")] (by decide) (by decide)
  refine ⟨?_, ?_, ?_⟩
  · have hx := h.1 "EXISTING" "new" (by decide)
    simpa [mapGet] using hx
  · have hx := h.1 "NEW_VAR" "x" (by decide)
    simpa [mapGet] using hx
  · have hx := h.2 "OTHER" (by decide)
    simpa [mapGet] using hx

/-- C7: an applyToEnvironment (load) call either fails with exactly the
fetch failure and leaves the process environment untouched, or succeeds
and applies every key of the fetched bundle through the override rule; the
underlying fetchSecrets result is itself all-or-nothing. -/
theorem C7_no_partial_application (cache : Cache) (env : EnvMap)
    (p e : String) (o : EzEnvOptions) (t : TransportOutcome) :
    (∀ err, (EzEnv.load cache env p e o t).result = Except.error err →
      (EzEnv.load cache env p e o t).env = env
      ∧ (EzEnv.get cache p e o t).result = Except.error err)
    ∧ ((EzEnv.load cache env p e o t).result = Except.ok () →
      ∃ s, (EzEnv.get cache p e o t).result = Except.ok s
        ∧ (EzEnv.load cache env p e o t).env = applySecrets env s o.override) := by
  cases h : (EzEnv.get cache p e o t).result with
  | ok s =>
    constructor
    · intro err herr
      rw [load_result_eq, h] at herr
      simp at herr
    · intro _
      exact ⟨s, rfl, by rw [load_env_eq, h]⟩
  | error err' =>
    constructor
    · intro err herr
      rw [load_result_eq, h] at herr
      simp at herr
      subst herr
      exact ⟨by rw [load_env_eq, h], rfl⟩
    · intro hok
      rw [load_result_eq, h] at hok
      simp at hok

/-- C8: a fetchSecrets call with an empty project or environment name
fails with a ValidationError naming the missing field, with the cache
unchanged, no network request issued and no cancellation timer armed. -/
theorem C8_empty_input_validation (cache : Cache) (p e : String)
    (o : EzEnvOptions) (t : TransportOutcome) (h : p = "" ∨ e = "") :
    (EzEnv.get cache p e o t).cache = cache
    ∧ (EzEnv.get cache p e o t).networkCalled = false
    ∧ (EzEnv.get cache p e o t).timerMs = none
    ∧ (EzEnv.get cache p e o t).result
        = .error (.ValidationError
            (if p = "" then "Project name is required"
             else "Environment name is required")) := by
  by_cases hp : p = ""
  · simp [EzEnv.get, hp]
  · rcases h with h | h
    · exact absurd h hp
    · simp [EzEnv.get, hp, h]

/-- C8 witness: an empty environment name at a concrete input. -/
theorem C8_empty_input_validation_witness :
    (EzEnv.get [("proj:dev", [("K", "v")])] "proj" "" {}
        (.fetchThrew "TypeError" (some "Failed to fetch"))).cache
      = [("proj:dev", [("K", "v")])]
    ∧ (EzEnv.get [("proj:dev", [("K", "v")])] "proj" "" {}
        (.fetchThrew "TypeError" (some "Failed to fetch"))).networkCalled = false
    ∧ (EzEnv.get [("proj:dev", [("K", "v")])] "proj" "" {}
        (.fetchThrew "TypeError" (some "Failed to fetch"))).result
      = .error (.ValidationError "Environment name is required") := by
  have h := C8_empty_input_validation [("proj:dev", [("K", "v")])] "proj" "" {}
    (.fetchThrew "TypeError" (some "Failed to fetch")) (Or.inr rfl)
  exact ⟨h.1, h.2.1, by simpa using h.2.2.2⟩

/-- C9: counterexample to the claim as stated.  A 200 response whose body
processing throws a failure named "AbortError" carrying the message "boom"
— a thrown failure that is none of the five typed errors — is reported as
NetworkError "Request timeout", not as a NetworkError carrying the
underlying message "boom". -/
theorem C9_abort_name_counterexample :
    (EzEnv.get [] "proj" "dev" {}
        (.response 200 (.notJson "AbortError" (some "boom")))).result
      = .error (.NetworkError "Request timeout")
    ∧ ("Request timeout" : String) ≠ "boom"
    ∧ ("boom" : String) ≠ "" := by
  decide

/-- C9 (amended): a fetchSecrets call that reaches the network and whose
response-body processing throws a failure that is not one of the five
typed errors fails with NetworkError carrying the underlying failure's
message, or "Network error occurred" when it has none — whatever the HTTP
status, a success 2xx included — except that a failure named "AbortError"
is reported as NetworkError "Request timeout" and a failure whose message
is exactly "Failed to fetch" as NetworkError "Failed to connect to EzEnv
API". -/
theorem C9_processing_failure_network_error (cache : Cache) (p e : String)
    (o : EzEnvOptions) (status : Nat) (name : String)
    (message : Option String) (hp : p ≠ "") (he : e ≠ "")
    (hmiss : o.noCache = true ∨ mapGet cache (p ++ ":" ++ e) = none)
    (hn : name ≠ "AbortError") (hm : message ≠ some "Failed to fetch") :
    (EzEnv.get cache p e o (.response status (.notJson name message))).result
      = .error (.NetworkError (jsOr message "Network error occurred")) := by
  rw [get_eq_getNetwork cache p e o _ hp he hmiss]
  simp [EzEnv.getNetwork, handleCatch, hn, hm]

/-- C9 witness: a 200 response with a body that is not valid JSON, the
parse failure carrying no message, at concrete inputs. -/
theorem C9_processing_failure_network_error_witness :
    (EzEnv.get [] "proj" "dev" {}
        (.response 200 (.notJson "SyntaxError" none))).result
      = .error (.NetworkError "Network error occurred") := by
  have h := C9_processing_failure_network_error [] "proj" "dev" {} 200
    "SyntaxError" none (by decide) (by decide) (Or.inr rfl)
    (by decide) (by decide)
  simpa using h

/-- C10: a fetchSecrets call that reaches the network with the timeout
option given as 0 arms the cancellation timer with the default 30000
milliseconds — exactly as when the option is omitted — rather than with
0. -/
theorem C10_zero_timeout_default (cache : Cache) (p e : String)
    (t : TransportOutcome) (nc ov : Bool) (hp : p ≠ "") (he : e ≠ "")
    (hmiss : nc = true ∨ mapGet cache (p ++ ":" ++ e) = none) :
    (EzEnv.get cache p e ⟨nc, some 0, ov⟩ t).timerMs = some 30000
    ∧ (EzEnv.get cache p e ⟨nc, some 0, ov⟩ t).timerMs
        = (EzEnv.get cache p e ⟨nc, none, ov⟩ t).timerMs
    ∧ (30000 : Nat) ≠ 0 := by
  rw [get_eq_getNetwork cache p e ⟨nc, some 0, ov⟩ t hp he hmiss,
    get_eq_getNetwork cache p e ⟨nc, none, ov⟩ t hp he hmiss,
    getNetwork_timerMs, getNetwork_timerMs]
  exact ⟨rfl, rfl, by decide⟩

/-- C10 witness: timeout 0 at a concrete input. -/
theorem C10_zero_timeout_default_witness :
    (EzEnv.get [] "proj" "dev" ⟨false, some 0, false⟩
        (.fetchThrew "AbortError" none)).timerMs = some 30000 :=
  (C10_zero_timeout_default [] "proj" "dev" (.fetchThrew "AbortError" none)
    false false (by decide) (by decide) (Or.inr rfl)).1

end EzEnvSdk
